import Mathlib

/-!
Verification of the hotel-booking MCP server (session store, view formatter,
search orchestrator and booking-quote state machine) against its design
specification.  The TypeScript sources are shallowly embedded: pure
formatting helpers become Lean functions, the mutable session becomes
explicit state passing, and every backend (gateway) interaction becomes a
parameter carrying the response the HTTP layer would have produced
(`none` models a transport failure, where `makeApiRequest` returns null).
-/

/-! ## JavaScript value primitives -/

/-- A JavaScript `string | number` union value, as used by the `value`
field of price objects and by hotel ids. -/
inductive JSValue where
  | vStr (s : String)
  | vNum (q : ℚ)
deriving DecidableEq

/-- JavaScript truthiness on `string | number`: the empty string and 0 are
falsy. -/
def jsValFalsy : JSValue → Bool
  | .vStr s => s == ""
  | .vNum q => q == 0

/-- `x || d` for an optional string, with the empty string falsy. -/
def jsStrOr (v : Option String) (d : String) : String :=
  match v with
  | some s => if s = "" then d else s
  | none => d

/-- `x || d` for a plain string. -/
def jsStrOrS (s d : String) : String :=
  if s = "" then d else s

/-- The result of a JavaScript numeric coercion: a rational, one of the two
infinities, or NaN. -/
inductive JNum where
  | nan
  | inf
  | ninf
  | num (q : ℚ)
deriving DecidableEq

/-- Value of a list of decimal digit characters. -/
def digitsToNat (cs : List Char) : ℕ :=
  cs.foldl (fun acc c => acc * 10 + (c.toNat - 48)) 0

/-- Whitespace trimming on character lists (kernel-computable model of
String.trim). -/
def trimChars (cs : List Char) : List Char :=
  ((cs.dropWhile Char.isWhitespace).reverse.dropWhile Char.isWhitespace).reverse

/-- Packaging of the parsed optional magnitude with its sign: NaN when the
parse failed. -/
def jnumOfParsed (neg : Bool) : Option ℚ → JNum
  | none => .nan
  | some q => .num (if neg then -q else q)

/-- The sign/digit core of Number-on-string, over the trimmed character
list. -/
def strToJNumCore (t : List Char) : JNum :=
  if t.isEmpty then .num 0
  else
    let (neg, cs) :=
      match t with
      | '-' :: r => (true, r)
      | '+' :: r => (false, r)
      | r => (false, r)
    let ip := cs.takeWhile Char.isDigit
    let rest := cs.dropWhile Char.isDigit
    let val? : Option ℚ :=
      match rest with
      | [] => if ip.isEmpty then none else some (digitsToNat ip)
      | '.' :: fr =>
          if fr.all Char.isDigit && (!ip.isEmpty || !fr.isEmpty) then
            some ((digitsToNat ip : ℚ) + (digitsToNat fr : ℚ) / (10 : ℚ) ^ fr.length)
          else none
      | _ => none
    jnumOfParsed neg val?

/-- `Number(s)` on a string, for the decimal fragment exercised by hotel
price data: optional surrounding whitespace, optional sign, integer digits
and an optional decimal fraction.  The empty (or all-whitespace) string
converts to 0 and anything else non-numeric to NaN.  Exponent, hex and
Infinity literals are outside the modelled fragment (they would also be
rejected here, while JS accepts them; no price datum uses them). -/
def strToJNum (s : String) : JNum :=
  strToJNumCore (trimChars s.toList)

/-- `Number(v)` on a `string | number` value. -/
def jsToNumber : JSValue → JNum
  | .vNum q => .num q
  | .vStr s => strToJNum s

/-- Left-pad a digit string with zeros to width `k`. -/
def padLeftZeros (k : ℕ) (s : String) : String :=
  if s.length < k then String.mk (List.replicate (k - s.length) '0') ++ s else s

/-- Decimal rendering of a rational, matching JS number-to-string for
integers and terminating decimal expansions (every finite JS float has
one; the non-terminating fallback is unreachable for values that denote JS
numbers). -/
def ratDisp (q : ℚ) : String :=
  let sgn := if q < 0 then "-" else ""
  let a := |q|
  if a.den = 1 then sgn ++ toString a.num
  else
    match (List.range 64).find? (fun k => (a * (10 : ℚ) ^ (k + 1)).den == 1) with
    | some k =>
        let n := (a * (10 : ℚ) ^ (k + 1)).num.toNat
        let base := 10 ^ (k + 1)
        sgn ++ toString (n / base) ++ "." ++ padLeftZeros (k + 1) (toString (n % base))
    | none => sgn ++ toString a.num ++ "/" ++ toString a.den

/-- String interpolation `${v}` of a `string | number` value. -/
def jsValDisp : JSValue → String
  | .vStr s => s
  | .vNum q => ratDisp q

/-- Whether `pat` occurs at the head of `cs`. -/
def charsStartWith : List Char → List Char → Bool
  | [], _ => true
  | _ :: _, [] => false
  | a :: as, b :: bs => a == b && charsStartWith as bs

/-- Whether `pat` occurs contiguously anywhere in `cs`. -/
def charsContain (pat : List Char) : List Char → Bool
  | [] => charsStartWith pat []
  | b :: bs => charsStartWith pat (b :: bs) || charsContain pat bs

/-- `hay.includes(needle)` on strings. -/
def strIncludes (hay needle : String) : Bool :=
  charsContain needle.toList hay.toList

/-- An apostrophe character, used in a few verbatim response strings. -/
def apos : String := String.singleton (Char.ofNat 39)

/-- Base64 alphabet lookup. -/
def b64char (n : ℕ) : Char :=
  ("ABCDEFGHIJKLMNOPQRSTUVWXYZabcdefghijklmnopqrstuvwxyz0123456789+/".toList).getD n 'A'

/-- Base64 encoding of a byte list (bytes as naturals below 256), with
padding, as produced by Buffer.toString("base64"). -/
def base64EncodeBytes : List ℕ → String
  | [] => ""
  | [a] =>
      String.mk [b64char (a / 4), b64char (a % 4 * 16)] ++ "=="
  | [a, b] =>
      String.mk [b64char (a / 4), b64char (a % 4 * 16 + b / 16), b64char (b % 16 * 4)] ++ "="
  | a :: b :: c :: rest =>
      String.mk [b64char (a / 4), b64char (a % 4 * 16 + b / 16),
                 b64char (b % 16 * 4 + c / 64), b64char (c % 64)] ++
      base64EncodeBytes rest

/-- `Buffer.from(s).toString("base64")`. -/
def jsBase64 (s : String) : String :=
  base64EncodeBytes (s.toUTF8.toList.map (·.toNat))

/-! ## Data model (types from the single-file server variant) -/

/-- A `{value, currency}` price object. -/
structure Price where
  value : JSValue
  currency : String
deriving DecidableEq

/-- Display rule `${p?.value || "N/A"} ${p?.currency || "USD"}` used for
every price in the formatters. -/
def priceStr (p : Option Price) : String :=
  (match p with
   | some pr => if jsValFalsy pr.value then "N/A" else jsValDisp pr.value
   | none => "N/A") ++ " " ++
  (match p with
   | some pr => if pr.currency = "" then "USD" else pr.currency
   | none => "USD")

/-- A policy entry `{type, name, description}`. -/
structure PolicyEntry where
  ptype : String
  pname : String
  description : List String
deriving DecidableEq

/-- An image entry `{type, path, order}` (order nullable on rooms). -/
structure Image where
  itype : String
  path : String
  iorder : Option ℤ
deriving DecidableEq

/-- An amenity entry; only `name` is read by the formatters. -/
structure Amenity where
  name : String
  aid : Option ℤ
  code : Option String
  adescription : Option String
  amount : Option String
deriving DecidableEq

/-- Result of `JSON.parse` applied to the encoded rate payload string (the
backend-defined blob the spec calls the rate payload): either unparseable,
or the extracted `meal_plan?.description` together with
`pricing?.pricing_type` when the pricing object carries one. -/
inductive PayloadBlob where
  | invalid
  | parsed (meal_plan_description : Option String) (pricing_type : Option String)
deriving DecidableEq

/-- A rate entry of a room. -/
structure Rate where
  rate_id : String
  check_in_date : Option String
  check_out_date : Option String
  provider_id : Option String
  description : Option String
  selling_price : Option Price
  tax_and_fee : Option Price
  base_price : Option Price
  is_refundable : Bool
  policies : Option (List PolicyEntry)
  payload : Option PayloadBlob
deriving DecidableEq

/-- The designated lowest-rate pointer of a room; only its `rate_id` is
read by the code under verification, the remaining optional fields are
omitted from the embedding. -/
structure LowestRate where
  rate_id : String
deriving DecidableEq

/-- A bed entry `{type, count}` (declared but unused by the formatters). -/
structure Bed where
  btype : String
  count : ℤ
deriving DecidableEq

/-- A room record. -/
structure HotelRoom where
  room_id : String
  room_name : String
  description : Option String
  max_occupancy : Option ℤ
  beds : Option (List Bed)
  amenities : Option (List Amenity)
  images : Option (List Image)
  min_price : Option Price
  max_price : Option Price
  lowest_rate : LowestRate
  rates : List Rate
deriving DecidableEq

/-- A raw hotel record. -/
structure Hotel where
  id : JSValue
  name : String
  star_rating : Option ℚ
  address : Option String
  description : Option String
  main_photo : Option String
  rating : Option ℚ
  images : Option (List Image)
  policies : Option (List PolicyEntry)
  amenities : List Amenity
  rooms : List HotelRoom
  min_price : Option Price
  max_price : Option Price
deriving DecidableEq

/-- A place-autocomplete suggestion; `main_text` embeds
`structured_formatting?.main_text`. -/
structure PlaceSuggestion where
  place_id : String
  description : String
  main_text : Option String
  types : Option (List String)
  latitude : ℚ
  longitude : ℚ
deriving DecidableEq

/-- The per-conversation session store.  The hotel map is embedded as an
association list in JS object insertion order: updating an existing key
keeps its position, a new key is appended. -/
structure SessionData where
  hotels : List (String × Hotel)
  placeSuggestions : List PlaceSuggestion
  confirmedPlace : Option PlaceSuggestion
  language : String
  conversation_id : Option String
  user_ip_address : Option String
  market : Option String
  currency : Option String
  country_code : Option String
deriving DecidableEq

/-- `session.hotels[k] = v` on the insertion-ordered map. -/
def hotelsUpsert (k : String) (v : Hotel) : List (String × Hotel) → List (String × Hotel)
  | [] => [(k, v)]
  | (k', v') :: t => if k' = k then (k, v) :: t else (k', v') :: hotelsUpsert k v t

/-- `session.hotels[k]` lookup. -/
def hotelsLookup (k : String) (m : List (String × Hotel)) : Option Hotel :=
  (m.find? (fun kv => kv.1 == k)).map (·.2)

/-- `hotel.id.toString()`. -/
def idToString : JSValue → String
  | .vStr s => s
  | .vNum q => ratDisp q

/-- `hotels.forEach(h => session.hotels[h.id.toString()] = h)`. -/
def recordHotels (hs : List Hotel) (m : List (String × Hotel)) : List (String × Hotel) :=
  hs.foldl (fun acc h => hotelsUpsert (idToString h.id) h acc) m

/-! ## View formatter: hotel summary (search listings) -/

/-- `${hotel.star_rating || "N/A"} stars` star part. -/
def starDisp (sr : Option ℚ) : String :=
  match sr with
  | some q => if q = 0 then "N/A" else ratDisp q
  | none => "N/A"

/-- Up to three images, main photo first, deduplicated against the image
list, exactly as computed at the top of formatHotelToSummaryObject. -/
def summaryImages (hotel : Hotel) : List String :=
  let images : List String :=
    match hotel.main_photo with
    | some mp => if mp = "" then [] else [mp]
    | none => []
  let extra : List String :=
    match hotel.images with
    | some imgs =>
        if imgs.length > 0 then
          ((imgs.filter (fun img =>
              match hotel.main_photo with
              | some mp => !(img.path == mp)
              | none => true)).take (if images.length = 0 then 3 else 3 - images.length)).map
            (·.path)
        else []
    | none => []
  images ++ extra

/-- The sort key `a.min_price ? Number(a.min_price.value) : Infinity`. -/
def roomKey (r : HotelRoom) : JNum :=
  match r.min_price with
  | some p => jsToNumber p.value
  | none => .inf

/-- Subtraction on JS numeric comparator values. -/
def jnumSub : JNum → JNum → JNum
  | .nan, _ => .nan
  | _, .nan => .nan
  | .inf, .inf => .nan
  | .inf, _ => .inf
  | .ninf, .ninf => .nan
  | .ninf, _ => .ninf
  | .num _, .inf => .ninf
  | .num _, .ninf => .inf
  | .num a, .num b => .num (a - b)

/-- Strict positivity of a comparator value; NaN is not positive. -/
def jnumGtZero : JNum → Bool
  | .nan => false
  | .inf => true
  | .ninf => false
  | .num q => decide (0 < q)

/-- The ordering realised by the comparator `priceA - priceB` under a
stable sort: `a` stays before `b` unless the comparator value is strictly
positive.  A NaN comparator value (a present but non-numeric price string)
is not positive, so it preserves input order, matching the stable
`Array.prototype.sort`.  For comparators consistent with a total preorder
every stable sort returns the same permutation, so insertion sort is an
exact model of the sort used on rooms. -/
def roomLe (a b : HotelRoom) : Prop :=
  jnumGtZero (jnumSub (roomKey a) (roomKey b)) = false

instance : DecidableRel roomLe := fun _ _ =>
  inferInstanceAs (Decidable (_ = false))

/-- The lowest-rate block of a hotel summary. -/
structure LowestRateView where
  room_id : String
  room_name : String
  rate_id : String
  price : String
  is_refundable : Bool
  payment_type : String
deriving DecidableEq

/-- A hotel summary as produced for search listings.  The summary code
computes a meal plan from the rate payload but never stores it in the
result object, so the view carries no meal-plan field. -/
structure HotelSummary where
  id : JSValue
  name : String
  ranking : String
  location : String
  price : String
  images : List String
  lowest_rate : LowestRateView
deriving DecidableEq

/-- Payment type extracted from the resolved rate in the summary path:
on a successful payload parse the type is overwritten from
`pricing?.pricing_type === "pay_later"`, otherwise it stays "Pay Now". -/
def summaryPaymentType (rate : Option Rate) : String :=
  match rate with
  | some r =>
      match r.payload with
      | some (.parsed _ pt) => if pt = some "pay_later" then "Pay Later" else "Pay Now"
      | _ => "Pay Now"
  | none => "Pay Now"

/-- formatHotelToSummaryObject from the single-file server variant. -/
def formatHotelToSummaryObject (hotel : Hotel) : HotelSummary :=
  let images := summaryImages hotel
  let base : LowestRateView :=
    { room_id := ""
      room_name := ""
      rate_id := ""
      price := priceStr hotel.min_price
      is_refundable := false
      payment_type := "Pay Now" }
  let lowestRateRoom :=
    match (List.insertionSort roomLe hotel.rooms).head? with
    | some cheapestRoom =>
        let rate := cheapestRoom.rates.find?
          (fun r => r.rate_id == cheapestRoom.lowest_rate.rate_id)
        { room_id := cheapestRoom.room_id
          room_name := cheapestRoom.room_name
          rate_id := cheapestRoom.lowest_rate.rate_id
          price := priceStr cheapestRoom.min_price
          is_refundable := (match rate with | some r => r.is_refundable | none => false)
          payment_type := summaryPaymentType rate }
    | none => base
  { id := hotel.id
    name := hotel.name
    ranking := starDisp hotel.star_rating ++ " stars"
    location := jsStrOr hotel.address "Unknown location"
    price := "From " ++ priceStr hotel.min_price
    images := images
    lowest_rate := lowestRateRoom }

/-! ## View formatter: hotel detail -/

/-- One formatted rate inside a hotel detail. -/
structure DetailRateView where
  rate_id : String
  description : String
  price : String
  is_refundable : Bool
  cancellation_policy : Option (List String)
  meal_plan : Option String
  payment_type : String
deriving DecidableEq

/-- One formatted room inside a hotel detail. -/
structure DetailRoomView where
  room_id : String
  room_name : String
  description : Option String
  images : List String
  amenities : List String
  max_occupancy : Option ℤ
  rates : List DetailRateView
deriving DecidableEq

/-- A formatted hotel detail. -/
structure HotelDetail where
  id : JSValue
  name : String
  ranking : String
  location : String
  description : Option String
  facilities : List String
  images : List String
  check_in : Option String
  check_out : Option String
  rooms : List DetailRoomView
deriving DecidableEq

/-- Per-rate decoration in the detail path.  The default payment type is
`rate.description || "Pay Now"`; a successful payload parse overwrites it
only when a truthy `pricing.pricing_type` is present. -/
def detailRateView (rate : Rate) : DetailRateView :=
  let dflt := jsStrOr rate.description "Pay Now"
  let extracted : Option String × String :=
    match rate.payload with
    | some (.parsed mp pt) =>
        (mp, match pt with
             | some x => if x = "" then dflt else if x = "pay_later" then "Pay Later" else "Pay Now"
             | none => dflt)
    | _ => (none, dflt)
  { rate_id := rate.rate_id
    description := rate.description.getD ""
    price := priceStr rate.selling_price
    is_refundable := rate.is_refundable
    cancellation_policy :=
      ((rate.policies.getD []).find? (fun p => p.ptype == "cancellation")).map (·.description)
    meal_plan := extracted.1
    payment_type := extracted.2 }

/-- Per-room formatting in the detail path. -/
def detailRoomView (room : HotelRoom) : DetailRoomView :=
  { room_id := room.room_id
    room_name := room.room_name
    description := room.description
    images := (room.images.getD []).map (·.path)
    amenities :=
      ((room.amenities.getD []).filter (fun a => !(strIncludes a.name "Unknown"))).map (·.name)
    max_occupancy := room.max_occupancy
    rates := room.rates.map detailRateView }

/-- formatHotelToDetailObject; a null/undefined hotel maps to the fixed
placeholder object. -/
def formatHotelToDetailObject (hotel? : Option Hotel) : HotelDetail :=
  match hotel? with
  | none =>
      { id := .vStr "unknown"
        name := "Unknown Hotel"
        ranking := "N/A"
        location := "N/A"
        description := none
        facilities := []
        images := []
        check_in := none
        check_out := none
        rooms := [] }
  | some hotel =>
      let images0 := (hotel.images.getD []).map (·.path)
      let images :=
        match hotel.main_photo with
        | some mp => if mp = "" then images0 else if images0.contains mp then images0 else mp :: images0
        | none => images0
      let facilities :=
        (hotel.amenities.filter (fun a => !(strIncludes a.name "Unknown Facility"))).map (·.name)
      let checkIn :=
        ((hotel.policies.getD []).find? (fun p => p.ptype == "check_in")).bind
          (fun p => p.description.head?)
      let checkOut :=
        ((hotel.policies.getD []).find? (fun p => p.ptype == "check_out")).bind
          (fun p => p.description.head?)
      { id := hotel.id
        name := hotel.name
        ranking := starDisp hotel.star_rating ++ " stars"
        location := jsStrOr hotel.address "Unknown location"
        description := hotel.description
        facilities := facilities
        images := images
        check_in := checkIn
        check_out := checkOut
        rooms := hotel.rooms.map detailRoomView }

/-! ## Booking-quote state machine -/

/-- The configured poll attempt budget of the quote pull loop. -/
def MAX_QUOTE_POLL_ATTEMPTS : ℕ := 30

/-- `{amount, currency}` of a quoted product price. -/
structure SellingPrice where
  amount : ℚ
  currency : String
deriving DecidableEq

/-- One quoted product from a resolved quote.  `final_price` is the price
field read by the legacy single-file handler, `selling_price` the one read
by the booking tool. -/
structure QuoteProduct where
  hotel_name : String
  check_in_date : String
  check_out_date : String
  selling_price : Option SellingPrice
  final_price : Option SellingPrice
deriving DecidableEq

/-- A resolved quote. -/
structure Quote where
  quoted_products : List QuoteProduct
deriving DecidableEq

/-- The body of a quote-pull response. -/
structure PullResponse where
  status : String
  quote : Option Quote
  error : Option String
deriving DecidableEq

/-- A backend interaction trace for the pull endpoint: the response of the
n-th quote-pull call, `none` for a transport-level failure. -/
def PullOracle : Type := ℕ → Option PullResponse

/-- `${sp?.amount || "N/A"} ${sp?.currency || "USD"}`. -/
def sellingDisp (sp : Option SellingPrice) : String :=
  (match sp with
   | some s => if s.amount = 0 then "N/A" else ratDisp s.amount
   | none => "N/A") ++ " " ++
  (match sp with
   | some s => if s.currency = "" then "USD" else s.currency
   | none => "USD")

/-- The body of the pollForQuoteStatus while loop.  The first argument is
the remaining fuel (budget minus attempts made so far), the second the
number of pull calls already made.  Each iteration makes exactly one pull
call; a null response consumes the attempt and leaves the status at
processing; a `failed` status throws (modelled by `Except.error`); any other
non-`processing`, non-`success` status ends the loop with a null result. -/
def pollAux (oracle : PullOracle) : ℕ → ℕ → Except String (Option Quote) × ℕ
  | 0, calls => (.ok none, calls)
  | fuel + 1, calls =>
    match oracle calls with
    | none => pollAux oracle fuel (calls + 1)
    | some resp =>
      if resp.status = "success" then (.ok resp.quote, calls + 1)
      else if resp.status = "failed" then
        (.error ("Quote generation failed: " ++ jsStrOr resp.error "Unknown error"), calls + 1)
      else if resp.status = "processing" then pollAux oracle fuel (calls + 1)
      else (.ok none, calls + 1)

/-- pollForQuoteStatus: poll until resolution or until the attempt budget
is exhausted; returns the quote (or null while still processing) together
with the number of pull calls made. -/
def pollForQuoteStatus (oracle : PullOracle) : Except String (Option Quote) × ℕ :=
  pollAux oracle MAX_QUOTE_POLL_ATTEMPTS 0

/-- The quote-schedule response consumed by the booking tool (its
`reference` field). -/
structure ScheduleResponse where
  reference : Option String
deriving DecidableEq

/-- A structured tool response of the booking tool: error, still
processing (with payment link), or success. -/
inductive ToolResp where
  | err (message : String)
  | processing (message : String) (payment_link : String) (quote_id : String)
  | success (action : String) (hotel : String) (check_in : String) (check_out : String)
      (total_price : String) (payment_link : String) (quote_id : String)
deriving DecidableEq

/-- The `status` tag of a booking tool response. -/
def toolStatus : ToolResp → String
  | .err _ => "error"
  | .processing .. => "processing"
  | .success .. => "success"

/-- The payment link carried by a booking tool response, if any. -/
def toolPaymentLink : ToolResp → Option String
  | .err _ => none
  | .processing _ pl _ => some pl
  | .success _ _ _ _ _ pl _ => some pl

/-- The payment link of the booking tool, derived from the quote reference
alone. -/
def bookPaymentLink (quoteId : String) : String :=
  "https://app.jinko.so/checkout/" ++ quoteId

/-- The still-processing message of the booking tool. -/
def bookProcessingMsg : String :=
  "Quote is still processing. Please check the status and complete your booking using the following payment link."

/-- The action hint of a successful booking response. -/
def bookSuccessAction : String :=
  "Make sure the payment_link should be displayed to user, which allow them to click and pay the booking."

/-- The rate lookup of bookHotel: scan the rooms in order and inside each
room the rates in order, returning the first room/rate pair whose rate id
matches. -/
def findRoomRate (target : String) : List HotelRoom → Option (HotelRoom × Rate)
  | [] => none
  | r :: rs =>
    match r.rates.find? (fun rt => rt.rate_id == target) with
    | some rt => some (r, rt)
    | none => findRoomRate target rs

/-- The tail of bookHotel after a successful schedule: run the poll loop
and map its outcome.  A thrown poll error propagates (the tool has no
try/catch around the poll). -/
def bookFinish (ref : String) : Except String (Option Quote) × ℕ → Except String ToolResp × ℕ
  | (.error e, n) => (.error e, n)
  | (.ok none, n) =>
      (.ok (.processing bookProcessingMsg (bookPaymentLink ref) ref), n)
  | (.ok (some q), n) =>
      match q.quoted_products.head? with
      | none => (.ok (.success "N/A" "Unknown hotel" "N/A" "N/A" "N/A" (bookPaymentLink ref) ref), n)
      | some product =>
          (.ok (.success bookSuccessAction (jsStrOrS product.hotel_name "Unknown hotel")
            product.check_in_date product.check_out_date
            (sellingDisp product.selling_price) (bookPaymentLink ref) ref), n)

/-- bookHotel of the modular booking tool: resolve hotel and rate from the
session, schedule a quote (the gateway response is the `sched` parameter)
and poll for its resolution.  The second component counts pull calls. -/
def bookHotel (hotel_id rate_id : String) (s : SessionData)
    (sched : Option ScheduleResponse) (oracle : PullOracle) :
    Except String ToolResp × ℕ :=
  match hotelsLookup hotel_id s.hotels with
  | none =>
      (.ok (.err ("Hotel with ID " ++ hotel_id ++
        " not found in session. Please use the search-hotels tool to find hotels first.")), 0)
  | some hotel =>
    match findRoomRate rate_id hotel.rooms with
    | none =>
        (.ok (.err ("Room or rate with ID " ++ rate_id ++ " not found in hotel " ++
          hotel_id ++ ".")), 0)
    | some _ =>
      match sched with
      | none => (.ok (.err "Failed to schedule quote. Please try again later."), 0)
      | some sr =>
        match sr.reference with
        | none => (.ok (.err "Failed to schedule quote. Please try again later."), 0)
        | some ref =>
          if ref = "" then (.ok (.err "Failed to schedule quote. Please try again later."), 0)
          else bookFinish ref (pollForQuoteStatus oracle)

/-- The quote-schedule response of the single-file variant (its `id`
field). -/
structure ScheduleRespV3 where
  sid : Option String
deriving DecidableEq

/-- A structured response of the single-file booking tool; its
still-processing shape carries no payment link, and its success shape uses
the base64-encoded quote id. -/
inductive ToolRespV3 where
  | err (message : String)
  | processing (message : String) (quote_id : String)
  | success (hotel : String) (check_in : String) (check_out : String)
      (total_price : String) (payment_link : String) (quote_id : String)
deriving DecidableEq

/-- bookHotel of the single-file server variant: same resolution and poll
loop, but the payment link is the base64-encoded reference under the
booking/pay path and the still-processing response has no payment link. -/
def bookHotelV3 (hotel_id rate_id : String) (s : SessionData)
    (sched : Option ScheduleRespV3) (oracle : PullOracle) :
    Except String ToolRespV3 × ℕ :=
  match hotelsLookup hotel_id s.hotels with
  | none =>
      (.ok (.err ("Hotel with ID " ++ hotel_id ++
        " not found in session. Please use the search-hotels tool to find hotels first.")), 0)
  | some hotel =>
    match findRoomRate rate_id hotel.rooms with
    | none =>
        (.ok (.err ("Room or rate with ID " ++ rate_id ++ " not found in hotel " ++
          hotel_id ++ ".")), 0)
    | some _ =>
      match sched with
      | none => (.ok (.err "Failed to schedule quote. Please try again later."), 0)
      | some sr =>
        match sr.sid with
        | none => (.ok (.err "Failed to schedule quote. Please try again later."), 0)
        | some quoteId =>
          if quoteId = "" then
            (.ok (.err "Failed to schedule quote. Please try again later."), 0)
          else
            match pollForQuoteStatus oracle with
            | (.error e, n) => (.error e, n)
            | (.ok none, n) =>
                (.ok (.processing ("Quote is still processing. You can check the status later using quote ID: " ++ quoteId) quoteId), n)
            | (.ok (some q), n) =>
                let encoded := jsBase64 quoteId
                let link := "http://www.jinko.so/booking/pay/" ++ encoded
                match q.quoted_products.head? with
                | none => (.ok (.success "Unknown hotel" "N/A" "N/A" "N/A" link encoded), n)
                | some product =>
                    (.ok (.success (jsStrOrS product.hotel_name "Unknown hotel")
                      product.check_in_date product.check_out_date
                      (sellingDisp product.selling_price) link encoded), n)

/-- The attempt budget of the legacy single-file handler. -/
def V4_MAX_ATTEMPTS : ℕ := 10

/-- Outcome of the inline poll loop of the legacy handler: an immediate
failed-quote return, or loop exit with the final status and quote. -/
inductive V4Poll where
  | failedNow (errText : String) (calls : ℕ)
  | ended (finalStatus : String) (quote : Option Quote) (calls : ℕ)
deriving DecidableEq

/-- The inline poll loop of the legacy book-hotel handler; a `failed`
status returns the backend error text as data instead of throwing. -/
def pollAuxV4 (oracle : PullOracle) : ℕ → ℕ → V4Poll
  | 0, calls => .ended "processing" none calls
  | fuel + 1, calls =>
    match oracle calls with
    | none => pollAuxV4 oracle fuel (calls + 1)
    | some resp =>
      if resp.status = "success" then .ended "success" resp.quote (calls + 1)
      else if resp.status = "failed" then
        .failedNow ("Quote generation failed: " ++ jsStrOr resp.error "Unknown error") (calls + 1)
      else if resp.status = "processing" then pollAuxV4 oracle fuel (calls + 1)
      else .ended resp.status none (calls + 1)

/-- The success text of the legacy handler. -/
def v4SuccessText (check_in check_out qid : String) (quote : Quote) : String :=
  let productInfo :=
    match quote.quoted_products.head? with
    | none => ""
    | some p =>
        ("Hotel: " ++ jsStrOrS p.hotel_name "Unknown hotel" ++
         "\nCheck-in: " ++ check_in ++ "\nCheck-out: " ++ check_out ++
         "\nTotal Price: " ++ sellingDisp p.final_price).trim
  ("Your hotel booking quote has been created successfully!\n\n" ++ productInfo ++
   "\n\nTo complete your booking, please proceed to the payment page:\n" ++
   "http://www.jinko.so/booking/pay/" ++ qid ++ "\n\nQuote ID: " ++ qid).trim

/-- The legacy single-file book-hotel handler: schedule (response in the
`sched` parameter, its `quote_id` field), poll inline with a budget of 10,
and always return plain text data — a failed poll is surfaced as text, so
no exception can escape the handler.  The second component counts pull
calls. -/
def bookHotelV4 (check_in check_out : String) (sched : Option (Option String))
    (oracle : PullOracle) : String × ℕ :=
  match sched with
  | none => ("Failed to schedule quote. Please try again later.", 0)
  | some qid? =>
    match qid? with
    | none => ("Failed to schedule quote. Please try again later.", 0)
    | some qid =>
      if qid = "" then ("Failed to schedule quote. Please try again later.", 0)
      else
        match pollAuxV4 oracle V4_MAX_ATTEMPTS 0 with
        | .failedNow t n => (t, n)
        | .ended st q n =>
          if st = "processing" then
            ("Quote is still processing. You can check the status later using quote ID: " ++ qid, n)
          else
            match q with
            | none => ("Failed to retrieve quote result. Please try again later.", n)
            | some quote => (v4SuccessText check_in check_out qid quote, n)

/-! ## Search / pagination orchestrator and session tools -/

/-- `structured_formatting?.main_text || description` place display name. -/
def placeName (p : PlaceSuggestion) : String :=
  jsStrOr p.main_text p.description

/-- The selected-place block of a search response. -/
structure SelectedPlaceView where
  pid : String
  pname : String
  plocation : String
deriving DecidableEq

/-- Parameters of the searchHotels tool. -/
structure SearchParams where
  check_in_date : String
  check_out_date : String
  adults : ℕ
  children : ℕ
  facilities : Option (List ℤ)
  place_id : Option String
deriving DecidableEq

/-- The body of a hotel-availability response (a missing `hotels` field
defaults to the empty list, a missing `total` to 0, as in the
destructuring). -/
structure AvailResponse where
  hotels : List Hotel
  total : ℤ
deriving DecidableEq

/-- The action hint of a successful search response. -/
def searchSuccessAction : String :=
  "Don" ++ apos ++ "t display the result by text, generate a html page with the hotels and their details to show in Artifact to the user"

/-- A structured search response. -/
inductive SearchResp where
  | error (message : String)
  | empty (message : String)
  | success (action : String) (total_hotels : ℤ) (results_count : ℕ)
      (selected_place : SelectedPlaceView) (hotels : List HotelSummary) (message : String)
deriving DecidableEq

/-- The `status` tag of a search response. -/
def searchStatus : SearchResp → String
  | .error _ => "error"
  | .empty _ => "empty"
  | .success .. => "success"

/-- Outcome of a searchHotels call: the response, the session after the
call, the number of gateway calls made and the latitude/longitude strings
embedded in the availability request (if one was sent). -/
structure SearchOutcome where
  resp : SearchResp
  sess : SessionData
  gatewayCalls : ℕ
  usedLocation : Option (String × String)
deriving DecidableEq

/-- The place override step at the top of searchHotels: a truthy place_id
is looked up in the current suggestions when there are any; a hit is
returned (and will overwrite the confirmed place), a miss yields none. -/
def searchPidMatch (params : SearchParams) (s : SessionData) : Option PlaceSuggestion :=
  match params.place_id with
  | some pid =>
      if pid ≠ "" ∧ s.placeSuggestions ≠ [] then
        s.placeSuggestions.find? (fun p => p.place_id == pid)
      else none
  | none => none

/-- The place a searchHotels call will use: the suggestion matched by
place_id if any, otherwise the already confirmed place. -/
def searchPlaceToUse (params : SearchParams) (s : SessionData) : Option PlaceSuggestion :=
  match searchPidMatch params s with
  | some p => some p
  | none => s.confirmedPlace

/-- searchHotels of the session-based search tool: resolve the place,
build the availability request from its coordinates, send it (the gateway
response is the `avail` parameter) and merge returned hotels into the
session by string id. -/
def searchHotels (params : SearchParams) (avail : Option AvailResponse)
    (s : SessionData) : SearchOutcome :=
  let s1 : SessionData :=
    match searchPidMatch params s with
    | some p => { s with confirmedPlace := some p }
    | none => s
  match searchPlaceToUse params s with
  | none =>
      { resp := .error "No place available. Please use the create-session tool first to find and confirm a location."
        sess := s1
        gatewayCalls := 0
        usedLocation := none }
  | some place =>
      let loc := (ratDisp place.latitude, ratDisp place.longitude)
      match avail with
      | none =>
          { resp := .error "Failed to retrieve hotel availability data. Please try again later."
            sess := s1
            gatewayCalls := 1
            usedLocation := some loc }
      | some a =>
          if a.hotels.isEmpty then
            { resp := .empty "No hotels found matching your criteria. Please try different search parameters."
              sess := s1
              gatewayCalls := 1
              usedLocation := some loc }
          else
            { resp := .success searchSuccessAction a.total a.hotels.length
                ⟨place.place_id, placeName place, place.description⟩
                (a.hotels.map formatHotelToSummaryObject)
                "Use get-hotel-details tool with the hotel ID to see more information."
              sess := { s1 with hotels := recordHotels a.hotels s1.hotels }
              gatewayCalls := 1
              usedLocation := some loc }

/-- The action hint of a successful detail response. -/
def detailsAction : String :=
  "Don" ++ apos ++ "t display the result by text, generate a html page with the hotel details to show in Artifact to the user"

/-- A structured get-hotel-details response. -/
inductive DetailsResp where
  | error (message : String)
  | success (action : String) (hotel : HotelDetail)
deriving DecidableEq

/-- getHotelDetails of the session-based search tool: a pure lookup in the
session hotel map; the second component counts gateway calls (always 0). -/
def getHotelDetails (hotel_id : String) (s : SessionData) : DetailsResp × ℕ :=
  match hotelsLookup hotel_id s.hotels with
  | some hotel => (.success detailsAction (formatHotelToDetailObject (some hotel)), 0)
  | none =>
      (.error ("Hotel with ID " ++ hotel_id ++
        " not found in session. Please use the search-hotels tool to find hotels first."), 0)

/-- The response of the session-scoped availability-detail endpoint used by
the standard variant. -/
structure StdDetailsResp where
  hotel : HotelDetail
  session_id : String
  message : String
deriving DecidableEq

/-- getHotelDetails of the standard search tool: it never consults the
session hotel map and instead always fetches the hotel from the gateway by
session id and hotel id (`gw` is the gateway response; null formats to the
placeholder detail).  The second component counts gateway calls. -/
def getHotelDetailsStandard (sid _hid : String) (gw : Option Hotel) :
    StdDetailsResp × ℕ :=
  ({ hotel := formatHotelToDetailObject gw
     session_id := sid
     message := "In this hotel detail response, the user can find all the information and all the available rate." }, 1)

/-! ## Session creation -/

/-- Deployment configuration defaults consumed by createSession. -/
structure Config where
  DEFAULT_MARKET : String
  DEFAULT_CURRENCY : String
  DEFAULT_COUNTRY_CODE : String
deriving DecidableEq

/-- Parameters of the create-session tool. -/
structure CSParams where
  place : String
  raw_request : Option String
  language : Option String
  currency : Option String
  country_code : Option String
deriving DecidableEq

/-- One translation entry of a facility. -/
structure FacilityTranslation where
  lang : String
  tfacility : String
deriving DecidableEq

/-- One facility from the static facilities data. -/
structure Facility where
  facility_id : ℤ
  facility : String
  translation : Option (List FacilityTranslation)
deriving DecidableEq

/-- One entry of the available-facilities list in the response. -/
structure FacilityView where
  fid : ℤ
  fname : String
deriving DecidableEq

/-- The body of a place-autocomplete response. -/
structure AutoResponse where
  predictions : Option (List PlaceSuggestion)
deriving DecidableEq

/-- A structured create-session response. -/
inductive CSResp where
  | error (message : String)
  | empty (message : String)
  | success (user_request : Option String) (selected_id : Option String)
      (selected_name : Option String) (selected_location : Option String)
      (alternative_places : List SelectedPlaceView)
      (available_facilities : List FacilityView)
      (conversation_id : Option String) (market : Option String) (language : String)
      (currency : Option String) (country_code : Option String)
deriving DecidableEq

/-- The `status` tag of a create-session response. -/
def csStatus : CSResp → String
  | .error _ => "error"
  | .empty _ => "empty"
  | .success .. => "success"

/-- The unconditional session reset-and-context block executed at the top
of createSession, before the place parameter is validated. -/
def resetSessionFor (params : CSParams) (cfg : Config) (uuid : String)
    (s : SessionData) : SessionData :=
  { s with
    hotels := []
    placeSuggestions := []
    confirmedPlace := none
    language := jsStrOr params.language "en"
    conversation_id := some uuid
    user_ip_address := some "127.0.0.1"
    market := some cfg.DEFAULT_MARKET
    currency := some (jsStrOr params.currency cfg.DEFAULT_CURRENCY)
    country_code := some (jsStrOr params.country_code cfg.DEFAULT_COUNTRY_CODE) }

/-- Outcome of a createSession call. -/
structure CSOutcome where
  resp : CSResp
  sess : SessionData
  gatewayCalls : ℕ
deriving DecidableEq

/-- One available-facility entry, translated to the session language with
the untranslated name as fallback. -/
def facilityView (lang : String) (f : Facility) : FacilityView :=
  let tf := ((f.translation.getD []).find? (fun t => t.lang == lang)).map (·.tfacility)
  ⟨f.facility_id, jsStrOr tf f.facility⟩

/-- createSession: reset the session and set the new conversation context
(uuid is the generated conversation id), then validate the place string,
then run place autocomplete (response in `auto`), store the suggestions
and auto-confirm the first prediction. -/
def createSession (params : CSParams) (cfg : Config) (uuid : String)
    (auto : Option AutoResponse) (facil : List Facility) (s : SessionData) : CSOutcome :=
  let s1 := resetSessionFor params cfg uuid s
  if params.place = "" ∨ params.place.trim = "" then
    { resp := .error "Place parameter is required for creating a session."
      sess := s1
      gatewayCalls := 0 }
  else
    match auto with
    | none =>
        { resp := .error "Failed to retrieve place suggestions. Please try again with a different query."
          sess := s1
          gatewayCalls := 1 }
    | some ar =>
      match ar.predictions with
      | none =>
          { resp := .empty "No places found matching your query. Please try a different search term."
            sess := s1
            gatewayCalls := 1 }
      | some preds =>
        if preds.isEmpty then
          { resp := .empty "No places found matching your query. Please try a different search term."
            sess := s1
            gatewayCalls := 1 }
        else
          let s2 := { s1 with placeSuggestions := preds, confirmedPlace := preds.head? }
          { resp := .success params.raw_request
              (s2.confirmedPlace.map (·.place_id))
              (s2.confirmedPlace.map placeName)
              (s2.confirmedPlace.map (·.description))
              (preds.map (fun p => ⟨p.place_id, placeName p, p.description⟩))
              (facil.map (facilityView s2.language))
              s2.conversation_id s2.market s2.language s2.currency s2.country_code
            sess := s2
            gatewayCalls := 1 }

/-! ## Sample data used by concrete witnesses and counterexamples -/

/-- A minimal concrete rate. -/
def sampleRate : Rate :=
  { rate_id := "r1", check_in_date := some "2025-06-25", check_out_date := some "2025-06-26",
    provider_id := some "p1", description := none, selling_price := none, tax_and_fee := none,
    base_price := none, is_refundable := true, policies := none, payload := none }

/-- A minimal concrete room holding `sampleRate`. -/
def sampleRoom : HotelRoom :=
  { room_id := "rm1", room_name := "Standard Room", description := none, max_occupancy := none,
    beds := none, amenities := none, images := none,
    min_price := some ⟨.vStr "80", "USD"⟩, max_price := none,
    lowest_rate := ⟨"r1"⟩, rates := [sampleRate] }

/-- A minimal concrete hotel with one room. -/
def sampleHotel : Hotel :=
  { id := .vStr "h1", name := "Hotel One", star_rating := none, address := none,
    description := none, main_photo := none, rating := none, images := none, policies := none,
    amenities := [], rooms := [sampleRoom], min_price := some ⟨.vStr "80", "USD"⟩,
    max_price := none }

/-- A concrete place suggestion. -/
def samplePlace : PlaceSuggestion :=
  { place_id := "pl1", description := "Paris, France", main_text := some "Paris",
    types := none, latitude := 1, longitude := 2 }

/-- A second concrete place suggestion. -/
def samplePlace2 : PlaceSuggestion :=
  { place_id := "pl2", description := "London, UK", main_text := some "London",
    types := none, latitude := 3, longitude := 4 }

/-- A populated concrete session. -/
def sampleSession : SessionData :=
  { hotels := [("h1", sampleHotel)], placeSuggestions := [samplePlace],
    confirmedPlace := some samplePlace, language := "fr",
    conversation_id := some "old-conv", user_ip_address := none, market := none,
    currency := none, country_code := none }

/-! ## The quote polling loop terminates within its budget (C10) -/

/-- The loop makes at most `fuel` further pull calls. -/
lemma pollAux_calls_le (oracle : PullOracle) :
    ∀ fuel calls, (pollAux oracle fuel calls).2 ≤ calls + fuel := by
  intro fuel
  induction fuel with
  | zero => intro calls; simp [pollAux]
  | succ k ih =>
    intro calls
    have hrec := ih (calls + 1)
    simp only [pollAux]
    split
    · omega
    · split
      · show calls + 1 ≤ calls + (k + 1)
        omega
      · split
        · show calls + 1 ≤ calls + (k + 1)
          omega
        · split
          · omega
          · show calls + 1 ≤ calls + (k + 1)
            omega

/-- A gateway that never answers makes the loop run to the end of the
budget and leave the null (still-processing) result. -/
lemma pollAux_all_none (oracle : PullOracle) (hnone : ∀ n, oracle n = none) :
    ∀ fuel calls, pollAux oracle fuel calls = (.ok none, calls + fuel) := by
  intro fuel
  induction fuel with
  | zero => intro calls; simp [pollAux]
  | succ k ih =>
    intro calls
    have harith : calls + 1 + k = calls + (k + 1) := by omega
    simp only [pollAux, hnone calls]
    rw [ih (calls + 1), harith]

/-- Claim C10: the quote polling loop always terminates after at most the
configured maximum number of pull calls, whatever the gateway does; a
transport-failure pull (null response) consumes exactly one unit of the
budget and leaves the loop polling (status still processing); hence a
gateway that never answers produces exactly the budget of calls and the
null still-processing result, never an unbounded loop. -/
theorem quote_poll_budget_bound (oracle : PullOracle) :
    (pollForQuoteStatus oracle).2 ≤ MAX_QUOTE_POLL_ATTEMPTS ∧
    (∀ fuel calls, oracle calls = none →
      pollAux oracle (fuel + 1) calls = pollAux oracle fuel (calls + 1)) ∧
    ((∀ n, oracle n = none) →
      pollForQuoteStatus oracle = (.ok none, MAX_QUOTE_POLL_ATTEMPTS)) := by
  refine ⟨?_, ?_, ?_⟩
  · simpa using pollAux_calls_le oracle MAX_QUOTE_POLL_ATTEMPTS 0
  · intro fuel calls h
    simp [pollAux, h]
  · intro hnone
    simpa using pollAux_all_none oracle hnone MAX_QUOTE_POLL_ATTEMPTS 0

/-- Witness for C10 at the concrete never-answering gateway. -/
theorem quote_poll_budget_bound_witness :
    pollForQuoteStatus (fun _ => none) = (.ok none, MAX_QUOTE_POLL_ATTEMPTS) :=
  (quote_poll_budget_bound (fun _ => none)).2.2 (fun _ => rfl)

/-! ## The all-processing poll run (C1) -/

/-- If every pull in reach of the remaining budget answers with status
processing, the loop runs the budget down completely and returns the null
still-processing result. -/
lemma pollAux_all_processing (oracle : PullOracle) :
    ∀ fuel calls,
      (∀ n, calls ≤ n → n < calls + fuel →
        ∃ resp, oracle n = some resp ∧ resp.status = "processing") →
      pollAux oracle fuel calls = (.ok none, calls + fuel) := by
  intro fuel
  induction fuel with
  | zero => intro calls _; simp [pollAux]
  | succ k ih =>
    intro calls h
    obtain ⟨resp, hor, hst⟩ := h calls (le_refl _) (by omega)
    have hs : ¬ resp.status = "success" := by rw [hst]; decide
    have hf : ¬ resp.status = "failed" := by rw [hst]; decide
    have harith : calls + 1 + k = calls + (k + 1) := by omega
    simp only [pollAux, hor]
    rw [if_neg hs, if_neg hf, if_pos hst]
    rw [ih (calls + 1) (fun n h1 h2 => h n (by omega) (by omega)), harith]

/-- Claim C1: when the hotel and rate resolve from the session, the quote
is scheduled successfully (truthy reference) and every quote-pull answers
with status processing, bookHotel makes exactly the configured budget of
pull calls — not more — and returns a still-processing result (not an
error) whose payment link is non-empty, is derived from the quote
reference alone, and coincides with the payment link every non-error
outcome of the same booking (in particular a successful poll) carries. -/
theorem book_all_processing
    (s : SessionData) (hotel_id rate_id ref : String) (hotel : Hotel)
    (oracle : PullOracle)
    (hh : hotelsLookup hotel_id s.hotels = some hotel)
    (hr : findRoomRate rate_id hotel.rooms ≠ none)
    (href : ref ≠ "")
    (hproc : ∀ n, n < MAX_QUOTE_POLL_ATTEMPTS →
      ∃ resp, oracle n = some resp ∧ resp.status = "processing") :
    bookHotel hotel_id rate_id s (some ⟨some ref⟩) oracle =
      (.ok (.processing bookProcessingMsg (bookPaymentLink ref) ref),
        MAX_QUOTE_POLL_ATTEMPTS) ∧
    bookPaymentLink ref ≠ "" ∧
    (∀ oracle2 tr n,
      bookHotel hotel_id rate_id s (some ⟨some ref⟩) oracle2 = (.ok tr, n) →
      toolPaymentLink tr = some (bookPaymentLink ref)) := by
  obtain ⟨pr, hpr⟩ := Option.ne_none_iff_exists'.mp hr
  refine ⟨?_, ?_, ?_⟩
  · have hpoll : pollForQuoteStatus oracle = (.ok none, MAX_QUOTE_POLL_ATTEMPTS) := by
      simpa using
        pollAux_all_processing oracle MAX_QUOTE_POLL_ATTEMPTS 0
          (fun n h1 h2 => hproc n (by omega))
    simp [bookHotel, hh, hpr, href, hpoll, bookFinish]
  · intro hcontra
    have hlen := congrArg String.length hcontra
    simp [bookPaymentLink, String.length_append] at hlen
    exact absurd hlen.1 (by decide)
  · intro oracle2 tr n heq
    simp only [bookHotel, hh, hpr, if_neg href] at heq
    rcases hpoll : pollForQuoteStatus oracle2 with ⟨res, m⟩
    rw [hpoll] at heq
    rcases res with e | q
    · simp [bookFinish] at heq
    · rcases q with _ | q
      · simp [bookFinish] at heq
        rw [← heq.1]
        rfl
      · rcases hhead : q.quoted_products.head? with _ | product
        · simp [bookFinish, hhead] at heq
          rw [← heq.1]
          rfl
        · simp [bookFinish, hhead] at heq
          rw [← heq.1]
          rfl

/-- Witness for C1 at a concrete session, schedule response and
always-processing gateway. -/
theorem book_all_processing_witness :
    bookHotel "h1" "r1" sampleSession (some ⟨some "REF-1"⟩)
        (fun _ => some ⟨"processing", none, none⟩) =
      (.ok (.processing bookProcessingMsg (bookPaymentLink "REF-1") "REF-1"),
        MAX_QUOTE_POLL_ATTEMPTS) :=
  (book_all_processing sampleSession "h1" "r1" "REF-1" sampleHotel
    (fun _ => some ⟨"processing", none, none⟩)
    (by decide)
    (by decide)
    (by decide)
    (fun n _ => ⟨⟨"processing", none, none⟩, rfl, rfl⟩)).1

/-! ## Empty search results leave the hotel map unchanged (C7) -/

/-- Claim C7: when the search reaches the gateway and the gateway answers
successfully with an empty hotel list, the response status is `empty` and
the session hotel map after the call is exactly the map before the call. -/
theorem search_empty_keeps_hotels
    (params : SearchParams) (s : SessionData) (a : AvailResponse)
    (hplace : searchPlaceToUse params s ≠ none)
    (hempty : a.hotels = []) :
    searchStatus (searchHotels params (some a) s).resp = "empty" ∧
    (searchHotels params (some a) s).sess.hotels = s.hotels := by
  obtain ⟨p, hp⟩ := Option.ne_none_iff_exists'.mp hplace
  rcases hm : searchPidMatch params s with _ | q
  · simp only [searchPlaceToUse, hm] at hp
    simp [searchHotels, searchPlaceToUse, hm, hp, hempty, searchStatus]
  · simp [searchHotels, searchPlaceToUse, hm, hempty, searchStatus]

/-- Witness for C7 at a concrete session and an empty availability
response. -/
theorem search_empty_keeps_hotels_witness :
    searchStatus (searchHotels ⟨"2025-06-25", "2025-06-26", 2, 0, none, none⟩
        (some ⟨[], 0⟩) sampleSession).resp = "empty" ∧
    (searchHotels ⟨"2025-06-25", "2025-06-26", 2, 0, none, none⟩
        (some ⟨[], 0⟩) sampleSession).sess.hotels = sampleSession.hotels :=
  search_empty_keeps_hotels ⟨"2025-06-25", "2025-06-26", 2, 0, none, none⟩
    sampleSession ⟨[], 0⟩ (by decide) rfl

/-! ## The undocumented place_id side effect of searchHotels (C9) -/

/-- Claim C9: passing a place_id to searchHotels has a session side
effect: a place_id matching a current suggestion overwrites the confirmed
place before the search runs (the request is built from that suggestion);
a place_id matching no current suggestion is silently ignored — the call
falls back to the previously confirmed place, still performs the search
with it, leaves the confirmed place unchanged, and the only error message
it can produce is the gateway-failure one, never one about the unknown
place id. -/
theorem search_place_id_side_effect
    (params : SearchParams) (s : SessionData) (avail : Option AvailResponse)
    (pid : String) :
    (∀ p, params.place_id = some pid → pid ≠ "" → s.placeSuggestions ≠ [] →
      s.placeSuggestions.find? (fun q => q.place_id == pid) = some p →
      (searchHotels params avail s).sess.confirmedPlace = some p ∧
      (searchHotels params avail s).usedLocation =
        some (ratDisp p.latitude, ratDisp p.longitude)) ∧
    (∀ q, params.place_id = some pid →
      s.placeSuggestions.find? (fun r => r.place_id == pid) = none →
      s.confirmedPlace = some q →
      (searchHotels params avail s).sess.confirmedPlace = some q ∧
      (searchHotels params avail s).gatewayCalls = 1 ∧
      (searchHotels params avail s).usedLocation =
        some (ratDisp q.latitude, ratDisp q.longitude) ∧
      (∀ m, (searchHotels params avail s).resp = .error m →
        m = "Failed to retrieve hotel availability data. Please try again later.")) := by
  constructor
  · intro p hpid hne hsug hfind
    have hm : searchPidMatch params s = some p := by
      simp [searchPidMatch, hpid, hne, hsug, hfind]
    rcases avail with _ | a
    · simp [searchHotels, searchPlaceToUse, hm]
    · by_cases hh : a.hotels.isEmpty
      · simp [searchHotels, searchPlaceToUse, hm, hh]
      · simp [searchHotels, searchPlaceToUse, hm, hh]
  · intro q hpid hfind hconf
    have hm : searchPidMatch params s = none := by
      by_cases hne : pid = ""
      · simp [searchPidMatch, hpid, hne]
      · by_cases hsug : s.placeSuggestions = []
        · simp [searchPidMatch, hpid, hne, hsug]
        · simp [searchPidMatch, hpid, hne, hsug, hfind]
    rcases avail with _ | a
    · simp [searchHotels, searchPlaceToUse, hm, hconf]
    · by_cases hh : a.hotels.isEmpty
      · simp [searchHotels, searchPlaceToUse, hm, hconf, hh]
      · simp [searchHotels, searchPlaceToUse, hm, hconf, hh]

/-- Witness for C9: both branches at concrete sessions — a matching
place_id overwrites the confirmed place, a non-matching one falls back to
the previously confirmed place with one gateway call. -/
theorem search_place_id_side_effect_witness :
    ((searchHotels ⟨"ci", "co", 2, 0, none, some "pl1"⟩ none
        ({ sampleSession with
           confirmedPlace := some samplePlace2
           placeSuggestions := [samplePlace] })).sess.confirmedPlace = some samplePlace ∧
      (searchHotels ⟨"ci", "co", 2, 0, none, some "pl1"⟩ none
        ({ sampleSession with
           confirmedPlace := some samplePlace2
           placeSuggestions := [samplePlace] })).usedLocation =
        some (ratDisp samplePlace.latitude, ratDisp samplePlace.longitude)) ∧
    ((searchHotels ⟨"ci", "co", 2, 0, none, some "nope"⟩ none sampleSession).sess.confirmedPlace =
        some samplePlace ∧
      (searchHotels ⟨"ci", "co", 2, 0, none, some "nope"⟩ none sampleSession).gatewayCalls = 1 ∧
      (searchHotels ⟨"ci", "co", 2, 0, none, some "nope"⟩ none sampleSession).usedLocation =
        some (ratDisp samplePlace.latitude, ratDisp samplePlace.longitude) ∧
      (∀ m, (searchHotels ⟨"ci", "co", 2, 0, none, some "nope"⟩ none sampleSession).resp = .error m →
        m = "Failed to retrieve hotel availability data. Please try again later.")) :=
  ⟨(search_place_id_side_effect ⟨"ci", "co", 2, 0, none, some "pl1"⟩
      ({ sampleSession with
         confirmedPlace := some samplePlace2
         placeSuggestions := [samplePlace] }) none "pl1").1 samplePlace rfl (by decide)
      (by decide) (by decide),
   (search_place_id_side_effect ⟨"ci", "co", 2, 0, none, some "nope"⟩
      sampleSession none "nope").2 samplePlace rfl (by decide) rfl⟩

/-! ## Hotel-detail lookup variants (C4) -/

/-- Claim C4 counterexample: the standard-variant getHotelDetails makes a
gateway call on every invocation (here: one call at a concrete input, with
the hotel id absent from every session), so the repository does not
resolve hotel details strictly from the session store in all variants. -/
theorem details_standard_calls_gateway :
    (getHotelDetailsStandard "s1" "h1" none).2 = 1 ∧ (1 : ℕ) ≠ 0 :=
  ⟨rfl, by decide⟩

/-- Claim C4 (amended): the session-based getHotelDetails (the hotel-mcp
search tool) is a cache-only read: it makes no gateway call, returns the
formatted detail of the stored record when the id is present, and a
hotel-not-found error instructing the caller to search first when it is
absent — while the standard variant instead always fetches the detail from
the gateway by session id and hotel id. -/
theorem details_session_cache_only (hotel_id : String) (s : SessionData) :
    (getHotelDetails hotel_id s).2 = 0 ∧
    (∀ h, hotelsLookup hotel_id s.hotels = some h →
      (getHotelDetails hotel_id s).1 =
        .success detailsAction (formatHotelToDetailObject (some h))) ∧
    (hotelsLookup hotel_id s.hotels = none →
      (getHotelDetails hotel_id s).1 =
        .error ("Hotel with ID " ++ hotel_id ++
          " not found in session. Please use the search-hotels tool to find hotels first.")) := by
  refine ⟨?_, ?_, ?_⟩
  · rcases h : hotelsLookup hotel_id s.hotels with _ | hh
    · simp [getHotelDetails, h]
    · simp [getHotelDetails, h]
  · intro h hl
    simp [getHotelDetails, hl]
  · intro hl
    simp [getHotelDetails, hl]

/-- Witness for C4 at the concrete sample session, on both a present and
an absent hotel id. -/
theorem details_session_cache_only_witness :
    (getHotelDetails "h1" sampleSession).1 =
      .success detailsAction (formatHotelToDetailObject (some sampleHotel)) ∧
    (getHotelDetails "h2" sampleSession).1 =
      .error ("Hotel with ID " ++ "h2" ++
        " not found in session. Please use the search-hotels tool to find hotels first.") :=
  ⟨(details_session_cache_only "h1" sampleSession).2.1 sampleHotel (by decide),
   (details_session_cache_only "h2" sampleSession).2.2 (by decide)⟩

/-! ## The rate lookup scans every room (C8) -/

/-- Characterisation of the nested room/rate scan. -/
lemma findRoomRate_none_iff (target : String) :
    ∀ rooms : List HotelRoom,
      (findRoomRate target rooms = none ↔
        ∀ r ∈ rooms, ∀ rt ∈ r.rates, rt.rate_id ≠ target) := by
  intro rooms
  induction rooms with
  | nil => simp [findRoomRate]
  | cons r rs ih =>
    rcases hf : r.rates.find? (fun rt => rt.rate_id == target) with _ | rt
    · have hnone : ∀ rt ∈ r.rates, rt.rate_id ≠ target := by
        intro rt hrt
        have := List.find?_eq_none.mp hf rt hrt
        simpa using this
      simp only [findRoomRate, hf]
      constructor
      · intro h
        intro x hx
        rw [List.mem_cons] at hx
        rcases hx with hx | hx
        · subst hx; exact hnone
        · exact (ih.mp h) x hx
      · intro h
        exact ih.mpr (fun x hx => h x (List.mem_cons_of_mem _ hx))
    · have hmem := List.find?_some hf
      have hmem2 := List.mem_of_find?_eq_some hf
      simp only [findRoomRate, hf]
      constructor
      · intro h; cases h
      · intro h
        exact absurd (by simpa using hmem) (h r (List.mem_cons_self _ _) rt hmem2)

/-- A successful scan returns a genuine room of the hotel and a rate of
that room with the requested id. -/
lemma findRoomRate_some (target : String) :
    ∀ rooms : List HotelRoom, ∀ r rt,
      findRoomRate target rooms = some (r, rt) →
      r ∈ rooms ∧ rt ∈ r.rates ∧ rt.rate_id = target := by
  intro rooms
  induction rooms with
  | nil => intro r rt h; cases h
  | cons x xs ih =>
    intro r rt h
    rcases hf : x.rates.find? (fun q => q.rate_id == target) with _ | q
    · simp only [findRoomRate, hf] at h
      obtain ⟨h1, h2, h3⟩ := ih r rt h
      exact ⟨List.mem_cons_of_mem _ h1, h2, h3⟩
    · simp only [findRoomRate, hf, Option.some.injEq, Prod.mk.injEq] at h
      obtain ⟨hr, hq⟩ := h
      subst hr; subst hq
      exact ⟨List.mem_cons_self _ _, List.mem_of_find?_eq_some hf,
        by simpa using List.find?_some hf⟩

/-- The messages of the two err outcomes reachable after the hotel
resolves are distinct: the rate-not-found text never coincides with the
schedule-failure text. -/
lemma rate_msg_ne_sched_msg (x y : String) :
    "Room or rate with ID " ++ x ++ y ≠
      "Failed to schedule quote. Please try again later." := by
  intro h
  have h4 : ("Room or rate with ID " ++ x ++ y).data.take 4 =
      "Failed to schedule quote. Please try again later.".data.take 4 := by
    rw [h]
  rw [String.data_append, String.data_append, List.append_assoc,
    List.take_append_of_le_length (by decide)] at h4
  exact absurd h4 (by decide)

/-- Claim C8: once the hotel id resolves, the bookHotel rate lookup scans
the rate lists of every room: it fails exactly when no room of the hotel
carries the requested rate id, a success yields a room of the hotel and a
rate of that room with the requested id, and the tool returns the
rate-not-found error result exactly when the scan fails. -/
theorem book_rate_lookup_scans_all_rooms
    (s : SessionData) (hotel_id rate_id : String) (hotel : Hotel)
    (hh : hotelsLookup hotel_id s.hotels = some hotel) :
    (findRoomRate rate_id hotel.rooms = none ↔
      ∀ r ∈ hotel.rooms, ∀ rt ∈ r.rates, rt.rate_id ≠ rate_id) ∧
    (∀ r rt, findRoomRate rate_id hotel.rooms = some (r, rt) →
      r ∈ hotel.rooms ∧ rt ∈ r.rates ∧ rt.rate_id = rate_id) ∧
    (∀ sched oracle,
      ((bookHotel hotel_id rate_id s sched oracle).1 =
          .ok (.err ("Room or rate with ID " ++ rate_id ++ " not found in hotel " ++
            hotel_id ++ "."))
        ↔ findRoomRate rate_id hotel.rooms = none)) := by
  refine ⟨findRoomRate_none_iff rate_id hotel.rooms,
    fun r rt => findRoomRate_some rate_id hotel.rooms r rt, ?_⟩
  intro sched oracle
  constructor
  · intro heq
    by_contra hne
    obtain ⟨⟨r, rt⟩, hpr⟩ := Option.ne_none_iff_exists'.mp hne
    rcases sched with _ | sr
    · simp only [bookHotel, hh, hpr] at heq
      have := (ToolResp.err.injEq ..).mp ((Except.ok.injEq ..).mp heq)
      exact rate_msg_ne_sched_msg rate_id (" not found in hotel " ++ hotel_id ++ ".")
        (by simpa [String.append_assoc] using this.symm)
    · rcases hsr : sr.reference with _ | ref
      · simp only [bookHotel, hh, hpr, hsr] at heq
        have := (ToolResp.err.injEq ..).mp ((Except.ok.injEq ..).mp heq)
        exact rate_msg_ne_sched_msg rate_id (" not found in hotel " ++ hotel_id ++ ".")
          (by simpa [String.append_assoc] using this.symm)
      · by_cases hre : ref = ""
        · simp only [bookHotel, hh, hpr, hsr, hre, if_pos rfl] at heq
          have := (ToolResp.err.injEq ..).mp ((Except.ok.injEq ..).mp heq)
          exact rate_msg_ne_sched_msg rate_id (" not found in hotel " ++ hotel_id ++ ".")
            (by simpa [String.append_assoc] using this.symm)
        · simp only [bookHotel, hh, hpr, hsr, if_neg hre] at heq
          rcases hp : pollForQuoteStatus oracle with ⟨res, m⟩
          rw [hp] at heq
          rcases res with e | q
          · simp [bookFinish] at heq
          · rcases q with _ | q
            · simp [bookFinish] at heq
            · rcases hhd : q.quoted_products.head? with _ | product
              · simp [bookFinish, hhd] at heq
              · simp [bookFinish, hhd] at heq
  · intro hnone
    simp [bookHotel, hh, hnone]

/-- A second concrete rate, living on a second room. -/
def sampleRate2 : Rate :=
  { sampleRate with rate_id := "r2", provider_id := some "p2" }

/-- A second concrete room carrying `sampleRate2`. -/
def sampleRoom2 : HotelRoom :=
  { sampleRoom with
    room_id := "rm2"
    room_name := "Deluxe Room"
    min_price := some ⟨.vStr "120", "USD"⟩
    lowest_rate := ⟨"r2"⟩
    rates := [sampleRate2] }

/-- A concrete hotel with two rooms; the rate with id r2 exists only on
the second room. -/
def sampleHotelTwoRooms : Hotel :=
  { sampleHotel with id := .vStr "h2r", rooms := [sampleRoom, sampleRoom2] }

/-- A session holding the two-room hotel. -/
def sessionTwoRooms : SessionData :=
  { sampleSession with hotels := [("h2r", sampleHotelTwoRooms)] }

/-- Witness for C8 at a hotel whose target rate lives on the second room,
not the first: the scan still resolves it and the rate-not-found result is
not produced. -/
theorem book_rate_lookup_scans_all_rooms_witness :
    (findRoomRate "r2" sampleHotelTwoRooms.rooms = none ↔
      ∀ r ∈ sampleHotelTwoRooms.rooms, ∀ rt ∈ r.rates, rt.rate_id ≠ "r2") ∧
    (∀ r rt, findRoomRate "r2" sampleHotelTwoRooms.rooms = some (r, rt) →
      r ∈ sampleHotelTwoRooms.rooms ∧ rt ∈ r.rates ∧ rt.rate_id = "r2") ∧
    (∀ sched oracle,
      ((bookHotel "h2r" "r2" sessionTwoRooms sched oracle).1 =
          .ok (.err ("Room or rate with ID " ++ "r2" ++ " not found in hotel " ++
            "h2r" ++ "."))
        ↔ findRoomRate "r2" sampleHotelTwoRooms.rooms = none)) :=
  book_rate_lookup_scans_all_rooms sessionTwoRooms "h2r" "r2" sampleHotelTwoRooms (by decide)


/-! ## createSession resets before validating (C2) -/

/-- Claim C2 counterexample: createSession called with an empty place
string on a populated session returns an error-status result, but the
session is not left as it was — the reset at the top of the function has
already cleared the hotel map (and replaced the conversation id) before
the validation runs, so the call partially applies. -/
theorem createSession_blank_place_mutates_session :
    csStatus (createSession ⟨"", none, none, none, none⟩ ⟨"US", "USD", "US"⟩
        "new-conv" none [] sampleSession).resp = "error" ∧
    (createSession ⟨"", none, none, none, none⟩ ⟨"US", "USD", "US"⟩
        "new-conv" none [] sampleSession).sess.hotels ≠ sampleSession.hotels ∧
    (createSession ⟨"", none, none, none, none⟩ ⟨"US", "USD", "US"⟩
        "new-conv" none [] sampleSession).sess.conversation_id ≠
      sampleSession.conversation_id := by
  refine ⟨rfl, ?_, ?_⟩ <;> decide

/-- Claim C2 (amended): createSession with an empty or whitespace-only
place string (the hypothesis is exactly the validation condition of the
code, `!place || place.trim() === ""`) returns an error-status result
without calling the gateway, but only after its unconditional session
reset has applied: the resulting session is exactly the freshly reset one
(hotel map cleared, suggestions cleared, no confirmed place, new
conversation id and scalar context), not the session as it was before the
call. -/
theorem createSession_blank_place_resets
    (params : CSParams) (cfg : Config) (uuid : String)
    (auto : Option AutoResponse) (facil : List Facility) (s : SessionData)
    (hblank : params.place = "" ∨ params.place.trim = "") :
    csStatus (createSession params cfg uuid auto facil s).resp = "error" ∧
    (createSession params cfg uuid auto facil s).gatewayCalls = 0 ∧
    (createSession params cfg uuid auto facil s).sess =
      resetSessionFor params cfg uuid s := by
  simp only [createSession, if_pos hblank]
  refine ⟨?_, ?_, ?_⟩ <;> trivial

/-- Witness for C2 (amended) at the concrete populated session. -/
theorem createSession_blank_place_resets_witness :
    csStatus (createSession ⟨"", some "req", some "de", none, none⟩ ⟨"US", "USD", "US"⟩
        "conv-2" none [] sampleSession).resp = "error" ∧
    (createSession ⟨"", some "req", some "de", none, none⟩ ⟨"US", "USD", "US"⟩
        "conv-2" none [] sampleSession).gatewayCalls = 0 ∧
    (createSession ⟨"", some "req", some "de", none, none⟩ ⟨"US", "USD", "US"⟩
        "conv-2" none [] sampleSession).sess =
      resetSessionFor ⟨"", some "req", some "de", none, none⟩ ⟨"US", "USD", "US"⟩
        "conv-2" sampleSession :=
  createSession_blank_place_resets ⟨"", some "req", some "de", none, none⟩
    ⟨"US", "USD", "US"⟩ "conv-2" none [] sampleSession (Or.inl rfl)

/-! ## A failed quote poll (C3) -/

/-- Claim C3 counterexample: in the single-file variant, a poll that
returns status failed makes pollForQuoteStatus throw and bookHotel does
not catch it, so the invocation ends in an exception carrying the error
text instead of a structured result — the exception escapes the tool
function. -/
theorem bookV3_failed_poll_throws :
    bookHotelV3 "h1" "r1" sampleSession (some ⟨some "Q1"⟩)
        (fun _ => some ⟨"failed", none, some "upstream says no"⟩) =
      (.error "Quote generation failed: upstream says no", 1) := rfl

/-- Claim C3 (amended): the legacy book-hotel handler does surface a
failed poll as data: whenever the first pull answers with status failed
and a truthy error text, the handler returns exactly the text `Quote
generation failed: ` plus the backend error, as a value, after one pull
call (its Lean type is a total function, so no exception can escape it);
the single-file variant instead propagates the poll exception out of
bookHotel with the same text. -/
theorem book_failed_poll_surfaced
    (check_in check_out qid e : String) (oracle : PullOracle) (resp : PullResponse)
    (hq : qid ≠ "") (h0 : oracle 0 = some resp) (hst : resp.status = "failed")
    (he : resp.error = some e) (hene : e ≠ "") :
    bookHotelV4 check_in check_out (some (some qid)) oracle =
      ("Quote generation failed: " ++ e, 1) ∧
    (∀ s hotel_id rate_id hotel sid,
      hotelsLookup hotel_id s.hotels = some hotel →
      findRoomRate rate_id hotel.rooms ≠ none →
      sid ≠ "" →
      bookHotelV3 hotel_id rate_id s (some ⟨some sid⟩) oracle =
        (.error ("Quote generation failed: " ++ e), 1)) := by
  have hfail : jsStrOr resp.error "Unknown error" = e := by
    rw [he]; simp [jsStrOr, hene]
  have hs : ¬ resp.status = "success" := by rw [hst]; decide
  constructor
  · simp only [bookHotelV4, if_neg hq]
    have hpoll : pollAuxV4 oracle V4_MAX_ATTEMPTS 0 =
        .failedNow ("Quote generation failed: " ++ e) 1 := by
      show pollAuxV4 oracle (9 + 1) 0 = _
      simp only [pollAuxV4, h0]
      rw [if_neg hs, if_pos hst, hfail]
    rw [hpoll]
  · intro s hotel_id rate_id hotel sid hh hr hsid
    obtain ⟨pr, hpr⟩ := Option.ne_none_iff_exists'.mp hr
    have hpoll : pollForQuoteStatus oracle =
        (.error ("Quote generation failed: " ++ e), 1) := by
      show pollAux oracle (29 + 1) 0 = _
      simp only [pollAux, h0]
      rw [if_neg hs, if_pos hst, hfail]
    simp [bookHotelV3, hh, hpr, hsid, hpoll]

/-- Witness for C3 (amended) at a concrete failing gateway. -/
theorem book_failed_poll_surfaced_witness :
    bookHotelV4 "2025-06-25" "2025-06-26" (some (some "QX"))
        (fun _ => some ⟨"failed", none, some "sold out"⟩) =
      ("Quote generation failed: " ++ "sold out", 1) :=
  (book_failed_poll_surfaced "2025-06-25" "2025-06-26" "QX" "sold out"
    (fun _ => some ⟨"failed", none, some "sold out"⟩)
    ⟨"failed", none, some "sold out"⟩
    (by decide) rfl rfl rfl (by decide)).1

/-! ## The zero-rooms summary placeholder (C5) -/

/-- A concrete hotel with no rooms but with its own aggregate min_price. -/
def zeroRoomHotel : Hotel :=
  { sampleHotel with rooms := [], min_price := some ⟨.vStr "100", "EUR"⟩ }

/-- A concrete hotel with no rooms and no aggregate min_price. -/
def bareHotel : Hotel :=
  { sampleHotel with rooms := [], min_price := none }

/-- Claim C5 counterexample: for a zero-room hotel that carries its own
min_price, the placeholder price is built from that price with the
N/A and USD component fallbacks — here the string `100 EUR` — and is not
the literal `N/A USD` the claim requires for every zero-room hotel. -/
theorem summary_zero_rooms_price_not_na :
    (formatHotelToSummaryObject zeroRoomHotel).lowest_rate =
      ⟨"", "", "", "100 EUR", false, "Pay Now"⟩ ∧
    (formatHotelToSummaryObject zeroRoomHotel).lowest_rate.price ≠ "N/A USD" := by
  refine ⟨by decide, by decide⟩

/-- Claim C5 (amended): for every hotel with an empty rooms list the
summary formatter returns the lowest-rate placeholder with empty room and
rate ids, is_refundable false, payment_type `Pay Now`, and price rendered
from the hotel's own min_price under the component fallbacks; the price
equals `N/A USD` exactly in the case that the hotel has no min_price of
its own (or only falsy components). -/
theorem summary_zero_rooms_placeholder (hotel : Hotel) (h : hotel.rooms = []) :
    (formatHotelToSummaryObject hotel).lowest_rate =
      ⟨"", "", "", priceStr hotel.min_price, false, "Pay Now"⟩ ∧
    (hotel.min_price = none → priceStr hotel.min_price = "N/A USD") := by
  constructor
  · simp [formatHotelToSummaryObject, h]
  · intro hm
    rw [hm]
    rfl

/-- Witness for C5 (amended) at the bare zero-room hotel, where the
placeholder price is indeed `N/A USD`. -/
theorem summary_zero_rooms_placeholder_witness :
    (formatHotelToSummaryObject bareHotel).lowest_rate =
      ⟨"", "", "", priceStr bareHotel.min_price, false, "Pay Now"⟩ ∧
    (bareHotel.min_price = none → priceStr bareHotel.min_price = "N/A USD") :=
  summary_zero_rooms_placeholder bareHotel rfl

/-! ## Room selection by price (C6) -/

/-- A rate for the NaN-priced room. -/
def rateA : Rate := { sampleRate with rate_id := "ra" }

/-- A rate for the numeric-priced room. -/
def rateB : Rate := { sampleRate with rate_id := "rb" }

/-- A room whose min_price value is a present but non-numeric string, so
its comparator key is NaN rather than Infinity. -/
def roomNaN : HotelRoom :=
  { sampleRoom with
    room_id := "roomA"
    room_name := "A"
    min_price := some ⟨.vStr "abc", "USD"⟩
    lowest_rate := ⟨"ra"⟩
    rates := [rateA] }

/-- A room with a parseable numeric price. -/
def roomNum : HotelRoom :=
  { sampleRoom with
    room_id := "roomB"
    room_name := "B"
    min_price := some ⟨.vNum 50, "USD"⟩
    lowest_rate := ⟨"rb"⟩
    rates := [rateB] }

/-- A hotel listing the NaN-priced room before the numeric one. -/
def nanHotel : Hotel :=
  { sampleHotel with id := .vStr "hn", rooms := [roomNaN, roomNum] }

/-- Claim C6 counterexample: a room whose min_price is present but does
not parse as a number gets comparator key NaN, which the sort comparator
treats as neither smaller nor larger — the stable sort keeps the room in
front, so the summary selects the unparseable-price room even though
another room has a numeric price.  Non-numeric present prices are not
treated as positive infinity. -/
theorem summary_nan_price_room_selected :
    (formatHotelToSummaryObject nanHotel).lowest_rate.room_id = "roomA" ∧
    roomKey roomNaN = JNum.nan ∧
    roomKey roomNum = JNum.num 50 ∧
    ("roomA" : String) ≠ "roomB" := by
  refine ⟨by decide, by decide, by decide, by decide⟩

/-- strToJNumCore never returns an infinity of either sign. -/
lemma jnumOfParsed_not_inf (neg : Bool) (v : Option ℚ) :
    jnumOfParsed neg v ≠ JNum.ninf ∧ jnumOfParsed neg v ≠ JNum.inf := by
  rcases v with _ | q <;> simp [jnumOfParsed]

lemma strToJNumCore_not_inf (t : List Char) :
    strToJNumCore t ≠ JNum.ninf ∧ strToJNumCore t ≠ JNum.inf := by
  unfold strToJNumCore
  split
  · simp
  · split
    exact jnumOfParsed_not_inf _ _

/-- A room key is never negative infinity: keys are NaN, a rational, or
positive infinity (for a missing min_price). -/
lemma roomKey_ne_ninf (r : HotelRoom) : roomKey r ≠ JNum.ninf := by
  unfold roomKey
  rcases hmp : r.min_price with _ | p
  · simp
  · show jsToNumber p.value ≠ JNum.ninf
    rcases hv : p.value with s | q
    · show strToJNum s ≠ JNum.ninf
      exact (strToJNumCore_not_inf _).1
    · show JNum.num q ≠ JNum.ninf
      simp

/-- On NaN-free keys the comparator relation is total. -/
lemma roomLe_total (a b : HotelRoom)
    (ha : roomKey a ≠ JNum.nan) (hb : roomKey b ≠ JNum.nan) :
    roomLe a b ∨ roomLe b a := by
  have ha' := roomKey_ne_ninf a
  have hb' := roomKey_ne_ninf b
  unfold roomLe
  rcases hka : roomKey a with _ | _ | _ | qa <;>
    rcases hkb : roomKey b with _ | _ | _ | qb
  all_goals try simp_all [jnumSub, jnumGtZero]
  exact le_total qa qb

/-- On NaN-free keys the comparator relation is transitive. -/
lemma roomLe_trans (a b c : HotelRoom)
    (ha : roomKey a ≠ JNum.nan) (hb : roomKey b ≠ JNum.nan) (hc : roomKey c ≠ JNum.nan)
    (h1 : roomLe a b) (h2 : roomLe b c) : roomLe a c := by
  have ha' := roomKey_ne_ninf a
  have hb' := roomKey_ne_ninf b
  have hc' := roomKey_ne_ninf c
  unfold roomLe at h1 h2 ⊢
  rcases hka : roomKey a with _ | _ | _ | qa <;>
    rcases hkb : roomKey b with _ | _ | _ | qb <;>
    rcases hkc : roomKey c with _ | _ | _ | qc
  all_goals try simp_all [jnumSub, jnumGtZero]
  all_goals linarith

/-- The head of an insertion sort is a lower bound for the whole list,
given totality and transitivity of the relation on the list members. -/
lemma insertionSort_head_min {α : Type} (r : α → α → Prop) [DecidableRel r] :
    ∀ l : List α,
      (∀ a ∈ l, ∀ b ∈ l, r a b ∨ r b a) →
      (∀ a ∈ l, ∀ b ∈ l, ∀ c ∈ l, r a b → r b c → r a c) →
      ∀ x0, (List.insertionSort r l).head? = some x0 → ∀ x ∈ l, r x0 x := by
  intro l
  induction l with
  | nil => intro _ _ x0 h; cases h
  | cons a t ih =>
    intro htot htrans x0 h0 x hx
    have hmemt : ∀ y ∈ t, y ∈ a :: t := fun y hy => List.mem_cons_of_mem a hy
    rcases hs : List.insertionSort r t with _ | ⟨b, u⟩
    · have ht : t = [] := by
        have hp := List.perm_insertionSort r t
        rw [hs] at hp
        exact hp.symm.eq_nil
      subst ht
      have h0' : some a = some x0 := h0
      have hx0 : x0 = a := (Option.some.inj h0').symm
      have hxa : x = a := by simpa using hx
      rw [hx0, hxa]
      rcases htot a (List.mem_cons_self a []) a (List.mem_cons_self a []) with h | h <;>
        exact h
    · have hbmem : b ∈ t := by
        have hmem : b ∈ List.insertionSort r t := by
          rw [hs]; exact List.mem_cons_self b u
        simpa using hmem
      have hbmin : ∀ y ∈ t, r b y :=
        ih (fun p hp q hq => htot p (hmemt p hp) q (hmemt q hq))
          (fun p hp q hq w hw => htrans p (hmemt p hp) q (hmemt q hq) w (hmemt w hw))
          b (by simp [hs])
      have hins : List.insertionSort r (a :: t) = List.orderedInsert r a (b :: u) := by
        simp [List.insertionSort, hs]
      by_cases hab : r a b
      · have hform : List.insertionSort r (a :: t) = a :: b :: u := by
          rw [hins]
          simp [List.orderedInsert, hab]
        rw [hform] at h0
        have h0' : some a = some x0 := h0
        have hx0 : x0 = a := (Option.some.inj h0').symm
        rcases List.mem_cons.mp hx with hxa | hxt
        · rw [hx0, hxa]
          rcases htot a (List.mem_cons_self a t) a (List.mem_cons_self a t) with h | h <;>
            exact h
        · rw [hx0]
          exact htrans a (List.mem_cons_self a t) b (hmemt b hbmem) x (hmemt x hxt)
            hab (hbmin x hxt)
      · have hba : r b a :=
          (htot a (List.mem_cons_self a t) b (hmemt b hbmem)).resolve_left hab
        have hform : List.insertionSort r (a :: t) = b :: List.orderedInsert r a u := by
          rw [hins]
          simp [List.orderedInsert, hab]
        rw [hform] at h0
        have h0' : some b = some x0 := h0
        have hx0 : x0 = b := (Option.some.inj h0').symm
        rcases List.mem_cons.mp hx with hxa | hxt
        · rw [hx0, hxa]; exact hba
        · rw [hx0]; exact hbmin x hxt

/-- Claim C6 (amended): for a hotel with a non-empty rooms list, provided
every room key parses without NaN — each room either has a numeric-parsing
min_price value or no min_price at all (treated as positive infinity) —
the summary formatter selects the first room of the stable sort, which is
a genuine room of the hotel whose key is a lower bound: any room with a
parseable numeric price bounds it from below, so the selected room carries
the minimum numeric price and a priceless room is never selected ahead of
a priced one.  (Without the NaN-freeness proviso the claim fails, see the
counterexample: a present but non-numeric price yields NaN, not
infinity.) -/
theorem summary_selects_min_numeric_room (hotel : Hotel)
    (hne : hotel.rooms ≠ [])
    (hnn : ∀ r ∈ hotel.rooms, roomKey r ≠ JNum.nan) :
    ∃ r0, (List.insertionSort roomLe hotel.rooms).head? = some r0 ∧
      r0 ∈ hotel.rooms ∧
      (formatHotelToSummaryObject hotel).lowest_rate.room_id = r0.room_id ∧
      (formatHotelToSummaryObject hotel).lowest_rate.rate_id = r0.lowest_rate.rate_id ∧
      ∀ r ∈ hotel.rooms, ∀ q : ℚ, roomKey r = JNum.num q →
        ∃ q0 : ℚ, roomKey r0 = JNum.num q0 ∧ q0 ≤ q := by
  rcases hs : List.insertionSort roomLe hotel.rooms with _ | ⟨r0, rest⟩
  · exfalso
    have hp := List.perm_insertionSort roomLe hotel.rooms
    rw [hs] at hp
    exact hne hp.symm.eq_nil
  · have hr0mem : r0 ∈ hotel.rooms := by
      have hmem : r0 ∈ List.insertionSort roomLe hotel.rooms := by
        rw [hs]; exact List.mem_cons_self _ _
      simpa using hmem
    have hmin : ∀ x ∈ hotel.rooms, roomLe r0 x :=
      insertionSort_head_min roomLe hotel.rooms
        (fun a hma b hmb => roomLe_total a b (hnn a hma) (hnn b hmb))
        (fun a hma b hmb c hmc hab hbc =>
          roomLe_trans a b c (hnn a hma) (hnn b hmb) (hnn c hmc) hab hbc)
        r0 (by simp [hs])
    refine ⟨r0, by simp [hs], hr0mem, ?_, ?_, ?_⟩
    · simp [formatHotelToSummaryObject, hs]
    · simp [formatHotelToSummaryObject, hs]
    · intro r hr q hq
      have hle := hmin r hr
      unfold roomLe at hle
      rcases hk0 : roomKey r0 with _ | _ | _ | q0
      · exact absurd hk0 (hnn r0 hr0mem)
      · rw [hk0, hq] at hle
        simp [jnumSub, jnumGtZero] at hle
      · exact absurd hk0 (roomKey_ne_ninf r0)
      · refine ⟨q0, rfl, ?_⟩
        rw [hk0, hq] at hle
        simp [jnumSub, jnumGtZero] at hle
        linarith

/-- Witness for C6 (amended) at the concrete two-room hotel with numeric
string prices 80 and 120. -/
theorem summary_selects_min_numeric_room_witness :
    ∃ r0, (List.insertionSort roomLe sampleHotelTwoRooms.rooms).head? = some r0 ∧
      r0 ∈ sampleHotelTwoRooms.rooms ∧
      (formatHotelToSummaryObject sampleHotelTwoRooms).lowest_rate.room_id = r0.room_id ∧
      (formatHotelToSummaryObject sampleHotelTwoRooms).lowest_rate.rate_id =
        r0.lowest_rate.rate_id ∧
      ∀ r ∈ sampleHotelTwoRooms.rooms, ∀ q : ℚ, roomKey r = JNum.num q →
        ∃ q0 : ℚ, roomKey r0 = JNum.num q0 ∧ q0 ≤ q :=
  summary_selects_min_numeric_room sampleHotelTwoRooms (by decide) (by decide)
